import Mathlib

/-!
Verification of the food-resolution and unit-conversion pipeline of
`fdc_lookup.py` (USDA FoodData Central lookup with fallbacks and 5-kcal
rounding).

The development has two layers.

* A typed layer: search candidates, detail records, portions and nutrients
  are Lean structures whose fields are the fields the Python code reads.
  A field of type `Option _` is `none` when the corresponding JSON value is
  absent, `null`, or of the wrong dynamic type (mirroring the pervasive
  `isinstance` guards / `or`-defaults of the source).  Python floats are
  modelled as rationals (`ℚ`), strings as `String` (ASCII case folding).
* A dynamic layer (`PyVal`): JSON values with Python's dynamic semantics,
  where attribute access and `float()` conversion can raise.  Functions of
  this layer return `Except PyExc _` so that exception propagation across
  the public boundary is observable.
-/

namespace FdcLookup

/-! ### String helpers (Python `.lower()`, `.strip()`, `in`) -/

/-- Is `needle` a prefix of `hay`?  (list-of-characters version). -/
def strHasPre (needle hay : List Char) : Bool :=
  match needle, hay with
  | [], _ => true
  | _ :: _, [] => false
  | a :: t₁, b :: t₂ => a == b && strHasPre t₁ t₂

/-- Is `needle` a contiguous substring of `hay`?  Mirrors Python's
`needle in hay` for strings; in particular the empty needle matches
everything. -/
def subOf (needle hay : List Char) : Bool :=
  match hay with
  | [] => needle.isEmpty
  | _ :: t => strHasPre needle hay || subOf needle t

/-- Python `needle in hay` for strings. -/
def containsStr (hay needle : String) : Bool :=
  subOf needle.toList hay.toList

/-- Python `.lower()` (ASCII case folding, which covers this pipeline's
inputs). -/
def lowerS (s : String) : String :=
  String.mk (s.toList.map Char.toLower)

/-- Python `.strip()`: remove leading and trailing whitespace. -/
def trimS (s : String) : String :=
  String.mk (((s.toList.dropWhile Char.isWhitespace).reverse.dropWhile
    Char.isWhitespace).reverse)

/-- Model of `(unit or "g").lower().strip()` from `_grams_for_request`:
the default applies only to the *empty* string (Python falsiness), and
lower-casing/stripping happen afterwards.  A whitespace-only unit is
therefore normalized to `""`, not `"g"`. -/
def normUnit (unit : String) : String :=
  trimS (lowerS (if unit = "" then "g" else unit))

/-! ### Rounding (`_round_kcal`)

Python's builtin `round` rounds half to even; on our rational model of
floats this is `pyRound`. -/

/-- Python `round(q)`: nearest integer, halves to even. -/
def pyRound (q : ℚ) : ℤ :=
  let f : ℤ := ⌊q⌋
  let r : ℚ := q - f
  if r < 1/2 then f
  else if 1/2 < r then f + 1
  else if f % 2 = 0 then f else f + 1

/-- `ROUND_TO_KCAL = 5` (set to `none` to disable). -/
def ROUND_TO_KCAL : Option ℕ := some 5

/-- `_round_kcal`, parametrized by the granularity setting: with the
granularity disabled (`none`, or `0`, both falsy in Python) this is
`round(v, 0)`; otherwise `int(round(v / step)) * ROUND_TO_KCAL`. -/
def roundKcal (granularity : Option ℕ) (v : ℚ) : ℚ :=
  match granularity with
  | none => (pyRound v : ℚ)
  | some n => if n = 0 then (pyRound v : ℚ) else ((pyRound (v / n) * n : ℤ) : ℚ)

/-- `_round_kcal` at the module's configured granularity. -/
def roundKcal5 (v : ℚ) : ℚ := roundKcal ROUND_TO_KCAL v

/-! ### Typed data model -/

/-- One entry of `foodNutrients`.  `number` is `nutrient.number`,
`nutrientNumber` the top-level fallback field, `name` is `nutrient.name`,
`amount` is the entry's amount when it is numeric (`isinstance(val, (int,
float))`), and `unitName` is `nutrient.unitName` — present in the data but
never read by the code. -/
structure FoodNutrient where
  number : Option String
  nutrientNumber : Option String
  name : Option String
  amount : Option ℚ
  unitName : Option String
deriving DecidableEq

/-- One entry of `foodPortions`.  `measureUnitName` flattens
`measureUnit.name` (with the code's `""` defaults). -/
structure FoodPortion where
  gramWeight : Option ℚ
  portionDescription : Option String
  measureUnitName : Option String
deriving DecidableEq

/-- The `labelNutrients` block; `calories` is `calories.value` when
numeric. -/
structure LabelNutrients where
  calories : Option ℚ
deriving DecidableEq

/-- A detail record (`/food/{fdcId}` response), restricted to the fields
the code reads. -/
structure FoodDetail where
  foodNutrients : List FoodNutrient
  labelNutrients : Option LabelNutrients
  servingSize : Option ℚ
  servingSizeUnit : Option String
  foodPortions : List FoodPortion
deriving DecidableEq

/-- A search candidate, restricted to the fields the code reads. -/
structure FoodCandidate where
  description : Option String
  dataType : Option String
  score : Option ℚ
  fdcId : Option ℕ
deriving DecidableEq

/-! ### Nutrient extraction (`_nutrient_kcal_per100g`, `_label_calories`,
`_serving_size_grams`, `_calories_per_gram`) -/

/-- `nutrient.get("number") or n.get("nutrientNumber")`: the fallback
applies when the first value is falsy (absent or `""`). -/
def resolveNum (n : FoodNutrient) : Option String :=
  match n.number with
  | some s => if s = "" then n.nutrientNumber else some s
  | none => n.nutrientNumber

/-- The energy-entry criterion: `str(num) == "1008" or "energy" in name or
"kcal" in name` (name lower-cased, `""` when absent). -/
def energyMatch (n : FoodNutrient) : Bool :=
  resolveNum n == some "1008"
    || containsStr (lowerS (n.name.getD "")) "energy"
    || containsStr (lowerS (n.name.getD "")) "kcal"

/-- The scanning loop of `_nutrient_kcal_per100g`: first entry that is
numeric *and* matches the energy criterion; anything else is skipped. -/
def nutrientScan : List FoodNutrient → Option ℚ
  | [] => none
  | n :: rest =>
    match n.amount with
    | some val => if energyMatch n then some val else nutrientScan rest
    | none => nutrientScan rest

/-- `_nutrient_kcal_per100g`. -/
def nutrientKcalPer100g (food : FoodDetail) : Option ℚ :=
  nutrientScan food.foodNutrients

/-- `_label_calories`. -/
def labelCalories (food : FoodDetail) : Option ℚ :=
  food.labelNutrients.bind (fun l => l.calories)

/-- The portion loop of `_serving_size_grams`: gram weight of the first
portion with a numeric, positive gram weight. -/
def firstPosPortion : List FoodPortion → Option ℚ
  | [] => none
  | p :: rest =>
    match p.gramWeight with
    | some gw => if 0 < gw then some gw else firstPosPortion rest
    | none => firstPosPortion rest

/-- `_serving_size_grams`: the explicit `servingSize` when its unit is
grams, otherwise the first positive portion gram weight. -/
def servingSizeGrams (food : FoodDetail) : Option ℚ :=
  let unit := lowerS (food.servingSizeUnit.getD "")
  match food.servingSize with
  | some size =>
    if unit = "g" ∨ unit = "gram" ∨ unit = "grams" then some size
    else firstPosPortion food.foodPortions
  | none => firstPosPortion food.foodPortions

/-- `_calories_per_gram`: nutrient table (per 100 g) first, then label
calories divided by serving-size grams (which must be positive). -/
def caloriesPerGram (food : FoodDetail) : Option ℚ :=
  match nutrientKcalPer100g food with
  | some per100 => some (per100 / 100)
  | none =>
    match labelCalories food with
    | some label =>
      match servingSizeGrams food with
      | some g => if 0 < g then some (label / g) else none
      | none => none
    | none => none

/-! ### Unit conversion (`_grams_for_request`) -/

/-- `FALLBACK_GRAMS["oz"]`. -/
def ozGrams : ℚ := 28.349523125

/-- `FALLBACK_GRAMS["each"]`, in insertion order. -/
def eachTable : List (String × ℚ) :=
  [("egg", 50), ("eggs", 50), ("apple", 182), ("banana", 118),
   ("orange", 131), ("pear", 178), ("peach", 150)]

/-- The `unit == "each"` heuristic: first table keyword occurring in the
lower-cased, stripped food name, else the generic 50 g. -/
def eachGrams (name : String) : ℚ :=
  let lower := trimS (lowerS name)
  match eachTable.find? (fun kv => containsStr lower kv.1) with
  | some kv => kv.2
  | none => 50

/-- The matching condition of the portion loop: the (already normalized)
unit occurs in the portion description or in the measure-unit name, or the
unit is `"each"` and the description mentions each/piece/unit. -/
def portionMatches (unit : String) (p : FoodPortion) : Bool :=
  let desc := lowerS (p.portionDescription.getD "")
  let uname := lowerS (p.measureUnitName.getD "")
  containsStr desc unit || containsStr uname unit
    || (unit == "each"
        && (containsStr desc "each" || containsStr desc "piece"
            || containsStr desc "unit"))

/-- The portion loop of `_grams_for_request`: gram weight of the first
portion with a numeric gram weight that satisfies `portionMatches`. -/
def portionScan (unit : String) : List FoodPortion → Option ℚ
  | [] => none
  | p :: rest =>
    match p.gramWeight with
    | some gram => if portionMatches unit p then some gram else portionScan unit rest
    | none => portionScan unit rest

/-- `_grams_for_request`. -/
def gramsForRequest (food : FoodDetail) (unitRaw : String) (amt : ℚ)
    (name : String) : Option ℚ :=
  let unit := normUnit unitRaw
  if unit = "g" ∨ unit = "oz" then
    some (amt * (if unit = "g" then 1 else ozGrams))
  else
    match portionScan unit food.foodPortions with
    | some gram => some (amt * gram)
    | none =>
      if unit = "each" then some (amt * eachGrams name)
      else if unit = "tbsp" then some (amt * 14.2)
      else if unit = "tsp" then some (amt * 4.2)
      else if unit = "cup" then some (amt * 240.0)
      else none

/-! ### Candidate ranking (`_datatype_rank`, `_best_food`) -/

/-- `_datatype_rank`: fixed priority of source types, unknown types last. -/
def datatypeRank (dt : String) : ℕ :=
  if dt = "Survey (FNDDS)" then 0
  else if dt = "SR Legacy" then 1
  else if dt = "Foundation" then 2
  else if dt = "Branded" then 3
  else 99

/-- The composite sort key of `_best_food.sort_key`: source-type rank, then
dried-agreement penalty, then negated relevance score, compared
lexicographically (as Python compares tuples). -/
def sortKey (query : String) (f : FoodCandidate) : ℕ ×ₗ ℕ ×ₗ ℚ :=
  let q := lowerS query
  let wantDried := containsStr q "dried"
  let desc := lowerS (f.description.getD "")
  let driedPenalty : ℕ := if wantDried = containsStr desc "dried" then 0 else 1
  toLex (datatypeRank (f.dataType.getD ""), toLex (driedPenalty, -(f.score.getD 0)))

/-- Comparison of candidates under the composite key of a fixed query. -/
def candLE (query : String) (f g : FoodCandidate) : Prop :=
  sortKey query f ≤ sortKey query g

instance (query : String) : DecidableRel (candLE query) :=
  fun f g => inferInstanceAs (Decidable (sortKey query f ≤ sortKey query g))

instance (query : String) : IsTotal FoodCandidate (candLE query) :=
  ⟨fun f g => le_total (sortKey query f) (sortKey query g)⟩

instance (query : String) : IsTrans FoodCandidate (candLE query) :=
  ⟨fun _ _ _ h₁ h₂ => le_trans h₁ h₂⟩

/-- `_best_food`: `sorted(foods, key=sort_key)[0] if foods else None`.
Python's `sorted` is a stable sort; insertion sort is stable for the same
total preorder. -/
def bestFood (foods : List FoodCandidate) (query : String) :
    Option FoodCandidate :=
  if foods.isEmpty then none
  else (List.insertionSort (candLE query) foods).head?

/-! ### Orchestration (`_http_json`, `_search_food`, `_get_food`,
`fdc_lookup_kcal`) with the diagnostics store

The network is a parameter: a `Backend` holds the outcome of the filtered
search request, of the unfiltered retry, and of the details request for
each id.  `HttpOutcome.ok` is an HTTP 200 response whose body parsed to a
record of the expected shape; `HttpOutcome.err` is any failure path of
`_http_json` (non-200 status, or an exception, in which case the status is
`none`).  The functions also return the trace of HTTP requests they issue,
and the diagnostic record they wrote (`none` when the code path performs no
`_set_err` call, leaving the process-wide store untouched). -/

/-- Diagnostic stages (`_set_err` first argument). -/
inductive Stage where
  | input
  | search
  | searchEmpty
  | details
  | parse
  | ok
  | okFallbackLabel
deriving DecidableEq

/-- The last-error record: stage plus the context fields the claims
observe. -/
structure Diag where
  stage : Stage
  status : Option ℕ
  error : Option String
  fdcId : Option ℕ
  total : Option ℚ
deriving DecidableEq

/-- One HTTP request issued by the pipeline: a search (with or without the
`dataType` filter) or a details fetch for an id. -/
inductive CallEv where
  | searchCall (filtered : Bool)
  | detailsCall (id : Option ℕ)
deriving DecidableEq

/-- Outcome of one HTTP call as seen through `_http_json`. -/
inductive HttpOutcome (α : Type) where
  | ok (data : α)
  | err (status : Option ℕ) (msg : String)
deriving DecidableEq

/-- Body of a search response: `(data or {}).get("foods") or []`. -/
structure SearchBody where
  foods : List FoodCandidate
deriving DecidableEq

/-- The backend's behaviour for the (at most three) HTTP requests a lookup
can issue. -/
structure Backend where
  searchFiltered : HttpOutcome SearchBody
  searchUnfiltered : HttpOutcome SearchBody
  details : Option ℕ → HttpOutcome FoodDetail

/-- Python truthiness of a candidate dict in the typed model: some field
is present (`if not food: return None`). -/
def candTruthy (f : FoodCandidate) : Bool :=
  f.description.isSome || f.dataType.isSome || f.score.isSome || f.fdcId.isSome

/-- Python truthiness of a detail dict in the typed model: some field is
present (`if not detail: return None`). -/
def detailTruthy (d : FoodDetail) : Bool :=
  !d.foodNutrients.isEmpty || d.labelNutrients.isSome || d.servingSize.isSome
    || d.servingSizeUnit.isSome || !d.foodPortions.isEmpty

/-- `_search_food`: filtered search; on zero candidates one retry without
the filter; `search`/`search_empty` diagnostics on failure; `_best_food`
on whichever candidate list was non-empty.  (In `search_empty` the status
is 200 because an `ok` outcome is a parsed 200 response.) -/
def searchFood (b : Backend) (query : String) :
    Option FoodCandidate × Option Diag × List CallEv :=
  match b.searchFiltered with
  | .err s m => (none, some ⟨.search, s, some m, none, none⟩, [.searchCall true])
  | .ok body =>
    if body.foods.isEmpty then
      match b.searchUnfiltered with
      | .err s m =>
        (none, some ⟨.search, s, some m, none, none⟩,
          [.searchCall true, .searchCall false])
      | .ok body2 =>
        if body2.foods.isEmpty then
          (none, some ⟨.searchEmpty, some 200, some "no foods", none, none⟩,
            [.searchCall true, .searchCall false])
        else
          (bestFood body2.foods query, none, [.searchCall true, .searchCall false])
    else
      (bestFood body.foods query, none, [.searchCall true])

/-- `_get_food`: details fetch, `details` diagnostic on failure. -/
def getFood (b : Backend) (id : Option ℕ) :
    Option FoodDetail × Option Diag × List CallEv :=
  match b.details id with
  | .err s m => (none, some ⟨.details, s, some m, id, none⟩, [.detailsCall id])
  | .ok d => (some d, none, [.detailsCall id])

/-- The extract/convert tail of `fdc_lookup_kcal` (lines 195-224): the
preferred per-gram path, then the label-per-serving fallback, then the
`parse` failure naming which side failed. -/
def lookupTail (detail : FoodDetail) (name : String) (amt : ℚ) (unit : String)
    (fdcId : Option ℕ) : Option ℚ × Diag :=
  let calPerG := caloriesPerGram detail
  let gramsReq := gramsForRequest detail unit amt name
  match calPerG, gramsReq with
  | some c, some g =>
    let total := roundKcal5 (c * g)
    (some total, ⟨.ok, none, none, fdcId, some total⟩)
  | _, _ =>
    let parseDiag : Diag :=
      if calPerG.isNone then
        ⟨.parse, none, some "no per-gram calories", fdcId, none⟩
      else
        ⟨.parse, none, some "no gram match for unit", fdcId, none⟩
    match labelCalories detail with
    | some label =>
      let unitLower := trimS (lowerS unit)
      if unitLower = "serving" ∨ unitLower = "servings" then
        let total := roundKcal5 (amt * label)
        (some total, ⟨.okFallbackLabel, none, none, fdcId, some total⟩)
      else (none, parseDiag)
    | none => (none, parseDiag)

/-- `fdc_lookup_kcal`: input validation, search, details fetch, then the
extract/convert tail.  The second component is the diagnostic written by
the call (`none` on the paths that perform no `_set_err`), the third the
trace of HTTP requests issued. -/
def fdcLookupKcal (b : Backend) (name : String) (amt : ℚ) (unit : String)
    (apiKey : String) : Option ℚ × Option Diag × List CallEv :=
  if name = "" ∨ apiKey = "" then
    (none, some ⟨.input, none, some "missing name or api_key", none, none⟩, [])
  else
    let sr := searchFood b name
    match sr.1 with
    | none => (none, sr.2.1, sr.2.2)
    | some food =>
      if candTruthy food then
        let gf := getFood b food.fdcId
        match gf.1 with
        | none => (none, gf.2.1, sr.2.2 ++ gf.2.2)
        | some detail =>
          if detailTruthy detail then
            let td := lookupTail detail name amt unit food.fdcId
            (td.1, some td.2, sr.2.2 ++ gf.2.2)
          else (none, none, sr.2.2 ++ gf.2.2)
      else (none, sr.2.1, sr.2.2)

/-! ### Dynamic layer: Python values and exception propagation

The typed layer above is total by construction, so it cannot express the
question whether `fdc_lookup_kcal` can *raise*.  This layer models parsed
JSON values (`PyVal`) with Python's dynamic semantics: `.get` on a
non-dict raises `AttributeError`, `.lower()` on a non-string raises
`AttributeError`, `float()` of `None`/lists/dicts raises `TypeError`,
`sorted()` of a non-iterable raises `TypeError`.  Integers and floats are
separate constructors (as in parsed JSON); numeric strings are converted
by `float()` via a decimal-literal parser (exotic literal forms —
underscores, `inf`, `nan` — are outside the rational model and treated as
unparseable). -/

deriving instance DecidableEq for Except

/-- A parsed JSON value as a Python object. -/
inductive PyVal where
  | vnone
  | vbool (b : Bool)
  | vint (z : ℤ)
  | vfloat (q : ℚ)
  | vstr (s : String)
  | vlist (xs : List PyVal)
  | vdict (kvs : List (String × PyVal))

/-- The Python exceptions this code can raise. -/
inductive PyExc where
  | attributeError (msg : String)
  | typeError (msg : String)
  | valueError (msg : String)
  | indexError (msg : String)
deriving DecidableEq

/-- Python truthiness. -/
def truthy : PyVal → Bool
  | .vnone => false
  | .vbool b => b
  | .vint z => z != 0
  | .vfloat q => q != 0
  | .vstr s => s != ""
  | .vlist xs => !xs.isEmpty
  | .vdict kvs => !kvs.isEmpty

/-- Python `x or y` (short-circuiting on truthiness). -/
def pyOr (x y : PyVal) : PyVal := if truthy x then x else y

/-- Python `v.get(key, dflt)`: raises `AttributeError` unless `v` is a
dict. -/
def dictGet (v : PyVal) (key : String) (dflt : PyVal) : Except PyExc PyVal :=
  match v with
  | .vdict kvs => .ok (((kvs.find? (fun kv => kv.1 = key)).map (fun kv => kv.2)).getD dflt)
  | _ => .error (.attributeError "get")

/-- Python `v.lower()`: raises `AttributeError` unless `v` is a string. -/
def pyLower : PyVal → Except PyExc String
  | .vstr s => .ok (lowerS s)
  | _ => .error (.attributeError "lower")

/-- Python iteration (`for`/`sorted`): lists yield their elements, strings
their characters, dicts their keys; other values raise `TypeError`. -/
def pyIter : PyVal → Except PyExc (List PyVal)
  | .vlist xs => .ok xs
  | .vstr s => .ok (s.toList.map (fun c => .vstr (String.mk [c])))
  | .vdict kvs => .ok (kvs.map (fun kv => .vstr kv.1))
  | _ => .error (.typeError "not iterable")

/-- `isinstance(v, (int, float))` — `bool` is a subclass of `int`. -/
def isNumeric : PyVal → Bool
  | .vint _ => true
  | .vfloat _ => true
  | .vbool _ => true
  | _ => false

/-- Decimal digits to a natural number. -/
def digitsNat (cs : List Char) : ℕ :=
  cs.foldl (fun a c => a * 10 + (c.toNat - 48)) 0

/-- Leading sign of a numeric literal. -/
def splitSign : List Char → Bool × List Char
  | '-' :: t => (true, t)
  | '+' :: t => (false, t)
  | cs => (false, cs)

/-- Python `float(s)` on a decimal string literal
(`[+-]?digits[.digits]?[eE[+-]?digits]?`, surrounding whitespace
stripped); other forms are rejected. -/
def parseFloatLit (s : String) : Option ℚ :=
  let (neg, cs) := splitSign (trimS s).toList
  let ip := cs.takeWhile Char.isDigit
  let cs1 := cs.dropWhile Char.isDigit
  let fp := match cs1 with
    | '.' :: t => t.takeWhile Char.isDigit
    | _ => []
  let cs2 := match cs1 with
    | '.' :: t => t.dropWhile Char.isDigit
    | _ => cs1
  if ip.isEmpty ∧ fp.isEmpty then none
  else
    let mant : ℚ := (digitsNat (ip ++ fp) : ℚ) / ((10 : ℚ) ^ fp.length)
    let withExp : Option ℚ :=
      match cs2 with
      | [] => some mant
      | c :: t =>
        if c = 'e' ∨ c = 'E' then
          let (eneg, t1) := splitSign t
          let ed := t1.takeWhile Char.isDigit
          let t2 := t1.dropWhile Char.isDigit
          if ed.isEmpty ∨ !t2.isEmpty then none
          else some (if eneg then mant / (10 : ℚ) ^ digitsNat ed
                     else mant * (10 : ℚ) ^ digitsNat ed)
        else none
    withExp.map (fun q => if neg then -q else q)

/-- Python `float(v)`. -/
def pyFloat : PyVal → Except PyExc ℚ
  | .vint z => .ok z
  | .vfloat q => .ok q
  | .vbool b => .ok (if b then 1 else 0)
  | .vstr s =>
    match parseFloatLit s with
    | some q => .ok q
    | none => .error (.valueError "could not convert string to float")
  | _ => .error (.typeError "float() argument")

/-- Model of the comparison `str(num) == "1008"`: true exactly for the
int `1008` and the string `"1008"` (`str` of a float always contains a dot
or exponent, and `str(None) == "None"`). -/
def strEq1008 : PyVal → Bool
  | .vint z => z == 1008
  | .vstr s => s == "1008"
  | _ => false

/-! Dynamic versions of the parsing helpers. -/

/-- Loop body of `_nutrient_kcal_per100g` over dynamic values. -/
def dynNutrientLoop : List PyVal → Except PyExc (Option ℚ)
  | [] => .ok none
  | n :: rest => do
    let nutrient0 ← dictGet n "nutrient" .vnone
    let nutrient := pyOr nutrient0 (.vdict [])
    let numA ← dictGet nutrient "number" .vnone
    let num ← if truthy numA then pure numA else dictGet n "nutrientNumber" .vnone
    let name0 ← dictGet nutrient "name" .vnone
    let name ← pyLower (pyOr name0 (.vstr ""))
    let val ← dictGet n "amount" .vnone
    if isNumeric val
        && (strEq1008 num || containsStr name "energy" || containsStr name "kcal") then
      (some ·) <$> pyFloat val
    else
      dynNutrientLoop rest

/-- `_nutrient_kcal_per100g` over dynamic values. -/
def dynNutrientKcalPer100g (food : PyVal) : Except PyExc (Option ℚ) := do
  let nuts0 ← dictGet food "foodNutrients" .vnone
  let nuts ← pyIter (pyOr nuts0 (.vlist []))
  dynNutrientLoop nuts

/-- `_label_calories` over dynamic values. -/
def dynLabelCalories (food : PyVal) : Except PyExc (Option ℚ) := do
  let lab0 ← dictGet food "labelNutrients" .vnone
  let lab := pyOr lab0 (.vdict [])
  match lab with
  | .vdict _ => do
    let cal ← dictGet lab "calories" .vnone
    let v ← dictGet (pyOr cal (.vdict [])) "value" .vnone
    if isNumeric v then (some ·) <$> pyFloat v else pure none
  | _ => pure none

/-- Portion loop of `_serving_size_grams` over dynamic values. -/
def dynServingLoop : List PyVal → Except PyExc (Option ℚ)
  | [] => .ok none
  | p :: rest => do
    let gw ← dictGet p "gramWeight" .vnone
    if isNumeric gw then do
      let q ← pyFloat gw
      if 0 < q then pure (some q) else dynServingLoop rest
    else dynServingLoop rest

/-- `_serving_size_grams` over dynamic values. -/
def dynServingSizeGrams (food : PyVal) : Except PyExc (Option ℚ) := do
  let size ← dictGet food "servingSize" .vnone
  let unit0 ← dictGet food "servingSizeUnit" .vnone
  let unit ← pyLower (pyOr unit0 (.vstr ""))
  if isNumeric size && (unit == "g" || unit == "gram" || unit == "grams") then
    (some ·) <$> pyFloat size
  else do
    let ps0 ← dictGet food "foodPortions" .vnone
    let ps ← pyIter (pyOr ps0 (.vlist []))
    dynServingLoop ps

/-- `_calories_per_gram` over dynamic values. -/
def dynCaloriesPerGram (food : PyVal) : Except PyExc (Option ℚ) := do
  let per100 ← dynNutrientKcalPer100g food
  match per100 with
  | some v => pure (some (v / 100))
  | none => do
    let label ← dynLabelCalories food
    match label with
    | some l => do
      let g ← dynServingSizeGrams food
      match g with
      | some gv => if 0 < gv then pure (some (l / gv)) else pure none
      | none => pure none
    | none => pure none

/-- Portion loop of `_grams_for_request` over dynamic values (`unit` is
the already-normalized unit string). -/
def dynPortionLoop (unit : String) (amt : ℚ) :
    List PyVal → Except PyExc (Option ℚ)
  | [] => .ok none
  | p :: rest => do
    let gram ← dictGet p "gramWeight" .vnone
    let desc0 ← dictGet p "portionDescription" .vnone
    let desc ← pyLower (pyOr desc0 (.vstr ""))
    let mu0 ← dictGet p "measureUnit" (.vdict [])
    let un0 ← dictGet (pyOr mu0 (.vdict [])) "name" (.vstr "")
    let uname ← pyLower un0
    if isNumeric gram
        && (containsStr desc unit || containsStr uname unit
            || (unit == "each"
                && (containsStr desc "each" || containsStr desc "piece"
                    || containsStr desc "unit"))) then do
      let g ← pyFloat gram
      pure (some (amt * g))
    else dynPortionLoop unit amt rest

/-- `_grams_for_request` over dynamic values. -/
def dynGramsForRequest (food : PyVal) (unitRaw : String) (amt : ℚ)
    (name : String) : Except PyExc (Option ℚ) :=
  let unit := normUnit unitRaw
  if unit = "g" ∨ unit = "oz" then
    pure (some (amt * (if unit = "g" then 1 else ozGrams)))
  else do
    let ps0 ← dictGet food "foodPortions" .vnone
    let ps ← pyIter (pyOr ps0 (.vlist []))
    let hit ← dynPortionLoop unit amt ps
    match hit with
    | some v => pure (some v)
    | none =>
      if unit = "each" then pure (some (amt * eachGrams name))
      else if unit = "tbsp" then pure (some (amt * 14.2))
      else if unit = "tsp" then pure (some (amt * 4.2))
      else if unit = "cup" then pure (some (amt * 240.0))
      else pure none

/-! Dynamic version of the ranker. -/

/-- `_datatype_rank` applied to a dynamic value: Python
`{...}.get(dt, 99)` — an unhashable key (list/dict) raises `TypeError`,
any other non-matching key yields 99. -/
def dynDatatypeRank : PyVal → Except PyExc ℕ
  | .vstr s => .ok (datatypeRank s)
  | .vlist _ => .error (.typeError "unhashable")
  | .vdict _ => .error (.typeError "unhashable")
  | _ => .ok 99

/-- `sort_key` of `_best_food` over a dynamic candidate. -/
def dynSortKey (wantDried : Bool) (f : PyVal) : Except PyExc (ℕ ×ₗ ℕ ×ₗ ℚ) := do
  let d0 ← dictGet f "description" .vnone
  let desc ← pyLower (pyOr d0 (.vstr ""))
  let driedPenalty : ℕ := if wantDried = containsStr desc "dried" then 0 else 1
  let dt ← dictGet f "dataType" (.vstr "")
  let rank ← dynDatatypeRank dt
  let sc ← dictGet f "score" (.vfloat 0)
  let scq ← pyFloat sc
  pure (toLex (rank, toLex (driedPenalty, -scq)))

/-- Ordering of key/value pairs by the precomputed sort key. -/
def keyedLE (a b : (ℕ ×ₗ ℕ ×ₗ ℚ) × PyVal) : Prop := a.1 ≤ b.1

instance : DecidableRel keyedLE :=
  fun a b => inferInstanceAs (Decidable (a.1 ≤ b.1))

/-- `_best_food` over dynamic values: `sorted(foods, key=sort_key)[0] if
foods else None`.  CPython's `sorted` materialises the iterable, computes
every key left to right, and sorts stably. -/
def dynBestFood (foods : PyVal) (query : String) :
    Except PyExc (Option PyVal) :=
  if truthy foods then do
    let xs ← pyIter foods
    let q := lowerS query
    let keyed ← xs.mapM (fun f => do
      let k ← dynSortKey (containsStr q "dried") f
      pure (k, f))
    match (List.insertionSort keyedLE keyed).head? with
    | some kf => pure (some kf.2)
    | none => .error (.indexError "list index out of range")
  else
    pure none

/-! Dynamic orchestration.  The outcome of `_http_json` is its result
triple `(data, status, error)`; the `Except` layer carries exceptions
raised *after* `_http_json` returns (everything inside `_http_json` is
wrapped in `try/except`). -/

/-- The `(data, status, error)` triple returned by `_http_json`. -/
def HttpTriple : Type := Option PyVal × Option ℕ × Option String

/-- `_search_food` over dynamic values. -/
def dynSearchFood (bFilt bUnfilt : HttpTriple) (query : String) :
    Except PyExc (Option PyVal × Option Diag) :=
  match bFilt with
  | (none, status, err) =>
    .ok (none, some ⟨.search, status, err, none, none⟩)
  | (some data, _, _) => do
    let f0 ← dictGet (pyOr data (.vdict [])) "foods" .vnone
    let foods := pyOr f0 (.vlist [])
    if truthy foods then do
      let b ← dynBestFood foods query
      pure (b, none)
    else
      match bUnfilt with
      | (none, status2, err2) =>
        .ok (none, some ⟨.search, status2, err2, none, none⟩)
      | (some data2, st2, _) => do
        let f2 ← dictGet (pyOr data2 (.vdict [])) "foods" .vnone
        let foods2 := pyOr f2 (.vlist [])
        if truthy foods2 then do
          let b ← dynBestFood foods2 query
          pure (b, none)
        else
          .ok (none, some ⟨.searchEmpty, st2, some "no foods", none, none⟩)

/-- `_get_food` over dynamic values (it returns the parsed body as-is;
the diagnostic's `fdcId` context field is left out since the dynamic id is
an arbitrary value). -/
def dynGetFood (bDet : HttpTriple) : Option PyVal × Option Diag :=
  match bDet with
  | (none, s, e) => (none, some ⟨.details, s, e, none, none⟩)
  | (some data, _, _) => (some data, none)

/-- `fdc_lookup_kcal` over dynamic values.  `bDet` maps the `fdcId` value
extracted from the chosen candidate to the details-response triple. -/
def dynFdcLookupKcal (bFilt bUnfilt : HttpTriple)
    (bDet : PyVal → HttpTriple) (name : String) (amt : ℚ) (unit : String)
    (apiKey : String) : Except PyExc (Option ℚ × Option Diag) :=
  if name = "" ∨ apiKey = "" then
    .ok (none, some ⟨.input, none, some "missing name or api_key", none, none⟩)
  else do
    let (food?, d1) ← dynSearchFood bFilt bUnfilt name
    match food? with
    | none => pure (none, d1)
    | some food =>
      if !truthy food then pure (none, d1)
      else do
        let fdcIdV ← dictGet food "fdcId" .vnone
        let (detail?, d2) := dynGetFood (bDet fdcIdV)
        match detail? with
        | none => pure (none, d2)
        | some detail =>
          if !truthy detail then pure (none, d2)
          else do
            let calPerG ← dynCaloriesPerGram detail
            let gramsReq ← dynGramsForRequest detail unit amt name
            match calPerG, gramsReq with
            | some c, some g =>
              let total := roundKcal5 (c * g)
              pure (some total, some ⟨.ok, none, none, none, some total⟩)
            | cpg, _ => do
              let labelCals ← dynLabelCalories detail
              let ul := trimS (lowerS unit)
              match labelCals with
              | some l =>
                if ul = "serving" ∨ ul = "servings" then
                  let total := roundKcal5 (amt * l)
                  pure (some total, some ⟨.okFallbackLabel, none, none, none, some total⟩)
                else
                  pure (none, some (if cpg.isNone then
                    ⟨.parse, none, some "no per-gram calories", none, none⟩
                  else ⟨.parse, none, some "no gram match for unit", none, none⟩))
              | none =>
                pure (none, some (if cpg.isNone then
                  ⟨.parse, none, some "no per-gram calories", none, none⟩
                else ⟨.parse, none, some "no gram match for unit", none, none⟩))

/-! ### Specification-side definitions

These re-state parts of the specification in its own words (first-match
via `List.find?`, stated priorities), to be compared with the source
embeddings above. -/

/-- Spec 4.2 step 1: an energy entry with a numeric value. -/
def energyNumeric (n : FoodNutrient) : Bool :=
  n.amount.isSome && energyMatch n

/-- Spec: "the record's value is per-100g" for the *first* energy entry
with a numeric value. -/
def nutrientKcalSpec (food : FoodDetail) : Option ℚ :=
  (food.foodNutrients.find? energyNumeric).bind (fun n => n.amount)

/-- A portion with a positive (numeric) gram weight. -/
def posGram (p : FoodPortion) : Bool :=
  match p.gramWeight with
  | some g => decide (0 < g)
  | none => false

/-- Spec 4.2 step 2: "prefer an explicit serving-size field when its unit
is grams; otherwise use the gram-weight of the first listed portion with a
positive gram-weight". -/
def servingGramsSpec (food : FoodDetail) : Option ℚ :=
  if food.servingSize.isSome
      ∧ (lowerS (food.servingSizeUnit.getD "") = "g"
        ∨ lowerS (food.servingSizeUnit.getD "") = "gram"
        ∨ lowerS (food.servingSizeUnit.getD "") = "grams") then
    food.servingSize
  else (food.foodPortions.find? posGram).bind (fun p => p.gramWeight)

/-- Spec 4.2: nutrient table strictly first, then label calories divided
by the resolved serving-size grams, failing when that is unresolvable or
non-positive. -/
def caloriesPerGramSpec (food : FoodDetail) : Option ℚ :=
  match nutrientKcalSpec food with
  | some v => some (v / 100)
  | none =>
    match labelCalories food, servingGramsSpec food with
    | some label, some g => if 0 < g then some (label / g) else none
    | _, _ => none

/-- Spec 4.3 steps 2-5 (for a normalized unit other than g/oz): the first
matching portion with a numeric gram weight wins over every generic
fallback; then the "each" keyword table, the tbsp/tsp/cup table, and
otherwise no result. -/
def gramsSpec (food : FoodDetail) (unit : String) (amt : ℚ) (name : String) :
    Option ℚ :=
  match food.foodPortions.find? (fun p => p.gramWeight.isSome && portionMatches unit p) with
  | some p => p.gramWeight.map (fun g => amt * g)
  | none =>
    if unit = "each" then some (amt * eachGrams name)
    else if unit = "tbsp" then some (amt * 14.2)
    else if unit = "tsp" then some (amt * 4.2)
    else if unit = "cup" then some (amt * 240.0)
    else none

/-- Replace every nutrient entry's (never consulted) `unitName` field. -/
def withNutrientUnits (f : FoodNutrient → Option String) (food : FoodDetail) :
    FoodDetail :=
  { food with foodNutrients := food.foodNutrients.map (fun n => { n with unitName := f n }) }

/-- A backend all of whose parsed responses are truthy dicts in the typed
sense (candidates and details with at least one field present). -/
def wfBackend (b : Backend) : Prop :=
  (∀ body, b.searchFiltered = .ok body → ∀ f ∈ body.foods, candTruthy f = true)
  ∧ (∀ body, b.searchUnfiltered = .ok body → ∀ f ∈ body.foods, candTruthy f = true)
  ∧ (∀ id d, b.details id = .ok d → detailTruthy d = true)

/-! ### Concrete records used by witnesses and counterexamples -/

/-- A detail with one authoritative cup portion of 100 g. -/
def exCupDetail : FoodDetail :=
  ⟨[], none, none, none, [⟨some 100, some "1 cup", none⟩]⟩

/-- A detail with no content at all (note: falsy in the typed model). -/
def exEmptyDetail : FoodDetail := ⟨[], none, none, none, []⟩

/-- Detail: nutrient code 1008 at 165 kcal/100 g *and* label calories 200
per 100 g serving. -/
def exNutrLabelDetail : FoodDetail :=
  ⟨[⟨some "1008", none, none, some 165, none⟩], some ⟨some 200⟩,
    some 100, some "g", []⟩

/-- Detail: an energy entry with a non-numeric amount followed by a
numeric one. -/
def exSkipDetail : FoodDetail :=
  ⟨[⟨some "1008", none, some "Energy", none, some "kcal"⟩,
    ⟨none, none, some "Energy", some 372, some "kcal"⟩], none, none, none, []⟩

/-- Detail: a kJ-denominated energy entry preceding the kcal entry. -/
def exKJDetail : FoodDetail :=
  ⟨[⟨some "1008", none, some "Energy", some 372, some "kJ"⟩,
    ⟨some "1008", none, some "Energy", some 89, some "kcal"⟩],
    none, none, none, []⟩

/-- Detail: nutrient code 1008 at 100 kcal/100 g. -/
def exUnitDetail : FoodDetail :=
  ⟨[⟨some "1008", none, none, some 100, none⟩], none, none, none, []⟩

/-- Branded candidate. -/
def cBranded : FoodCandidate :=
  ⟨some "Apple chips", some "Branded", some 10, some 1⟩

/-- Foundation candidate. -/
def cFoundation : FoodCandidate :=
  ⟨some "Apples, raw", some "Foundation", some 10, some 2⟩

/-- Survey (FNDDS) candidate. -/
def cSurvey : FoodCandidate :=
  ⟨some "Apple, raw", some "Survey (FNDDS)", some 10, some 3⟩

/-- Backend succeeding end to end with `exUnitDetail`. -/
def bSuccess : Backend :=
  ⟨.ok ⟨[cSurvey]⟩, .ok ⟨[]⟩, fun _ => .ok exUnitDetail⟩

/-- Backend whose searches return zero candidates. -/
def bEmptySearch : Backend :=
  ⟨.ok ⟨[]⟩, .ok ⟨[]⟩, fun _ => .err (some 404) "not found"⟩

/-- Backend whose filtered search times out. -/
def bTimeout : Backend :=
  ⟨.err none "ReadTimeout", .ok ⟨[]⟩, fun _ => .err none "ReadTimeout"⟩

/-- A 200 search response whose body is the JSON array `[1]` — valid
JSON, malformed shape. -/
def badArrayTriple : HttpTriple := (some (.vlist [.vint 1]), some 200, none)

/-- A 200 search response with an empty candidate list. -/
def emptyFoodsTriple : HttpTriple :=
  (some (.vdict [("foods", .vlist [])]), some 200, none)

/-- A failing details response. -/
def errDetailsTriple : PyVal → HttpTriple := fun _ => (none, some 404, some "nope")

/-! ### Helper lemmas -/

theorem nutrientScan_eq_find (l : List FoodNutrient) :
    nutrientScan l = (l.find? energyNumeric).bind (fun n => n.amount) := by
  induction l with
  | nil => rfl
  | cons n rest ih =>
    rw [nutrientScan, List.find?]
    cases ha : n.amount with
    | none => simp [energyNumeric, ha, ih]
    | some val =>
      by_cases hm : energyMatch n
      · simp [energyNumeric, ha, hm]
      · simp [energyNumeric, ha, hm, ih]

theorem firstPosPortion_eq_find (l : List FoodPortion) :
    firstPosPortion l = (l.find? posGram).bind (fun p => p.gramWeight) := by
  induction l with
  | nil => rfl
  | cons p rest ih =>
    rw [firstPosPortion, List.find?]
    cases hg : p.gramWeight with
    | none => simp [posGram, hg, ih]
    | some g =>
      by_cases hpos : 0 < g
      · simp [posGram, hg, hpos]
      · simp [posGram, hg, hpos, ih]

theorem portionScan_eq_find (unit : String) (l : List FoodPortion) :
    portionScan unit l
      = (l.find? (fun p => p.gramWeight.isSome && portionMatches unit p)).bind
          (fun p => p.gramWeight) := by
  induction l with
  | nil => rfl
  | cons p rest ih =>
    rw [portionScan, List.find?]
    cases hg : p.gramWeight with
    | none => simp [hg, ih]
    | some g =>
      by_cases hm : portionMatches unit p
      · simp [hg, hm]
      · simp [hg, hm, ih]

theorem pyRound_close (q : ℚ) : |q - pyRound q| ≤ 1/2 := by
  have h₁ : (⌊q⌋ : ℚ) ≤ q := Int.floor_le q
  have h₂ : q < ⌊q⌋ + 1 := Int.lt_floor_add_one q
  rw [pyRound]
  split_ifs with hlt hgt heven
  · rw [abs_le]; constructor <;> push_cast <;> linarith
  · rw [abs_le]; constructor <;> push_cast <;> linarith
  · rw [abs_le]; constructor <;> push_cast <;> linarith
  · rw [abs_le]; constructor <;> push_cast <;> linarith

theorem bestFood_cons (x : FoodCandidate) (xs : List FoodCandidate)
    (query : String) :
    ∃ b, bestFood (x :: xs) query = some b ∧ b ∈ x :: xs
      ∧ ∀ f ∈ x :: xs, sortKey query b ≤ sortKey query f := by
  have hlen := List.length_insertionSort (candLE query) (x :: xs)
  have hne : List.insertionSort (candLE query) (x :: xs) ≠ [] := by
    intro h
    rw [h] at hlen
    simp at hlen
  obtain ⟨b, t, hbt⟩ := List.exists_cons_of_ne_nil hne
  have hsorted := List.sorted_insertionSort (candLE query) (x :: xs)
  have hperm := List.perm_insertionSort (candLE query) (x :: xs)
  rw [hbt] at hsorted hperm
  refine ⟨b, ?_, ?_, ?_⟩
  · rw [bestFood, if_neg (by simp), hbt]
    rfl
  · exact hperm.mem_iff.mp (List.mem_cons_self b t)
  · intro f hf
    have hf' : f ∈ b :: t := hperm.mem_iff.mpr hf
    rcases List.mem_cons.mp hf' with h | h
    · rw [h]
    · exact List.rel_of_sorted_cons hsorted f h

theorem bestFood_mem {l : List FoodCandidate} {query : String}
    {f : FoodCandidate} (h : bestFood l query = some f) : f ∈ l := by
  cases l with
  | nil => simp [bestFood] at h
  | cons x xs =>
    obtain ⟨b, hb, hmem, _⟩ := bestFood_cons x xs query
    rw [hb] at h
    cases h
    exact hmem

theorem bestFood_isSome (query : String) {l : List FoodCandidate}
    (h : l ≠ []) : ∃ f, bestFood l query = some f := by
  cases l with
  | nil => exact absurd rfl h
  | cons x xs =>
    obtain ⟨b, hb, _, _⟩ := bestFood_cons x xs query
    exact ⟨b, hb⟩

theorem roundKcal5_eq (v : ℚ) : roundKcal5 v = (pyRound (v / 5) : ℚ) * 5 := by
  rw [roundKcal5, ROUND_TO_KCAL, roundKcal, if_neg (by norm_num)]
  push_cast
  norm_num

theorem lookupTail_pref {detail : FoodDetail} {name : String} {amt : ℚ}
    {unit : String} {id : Option ℕ} {c g : ℚ}
    (h₁ : caloriesPerGram detail = some c)
    (h₂ : gramsForRequest detail unit amt name = some g) :
    lookupTail detail name amt unit id =
      (some (roundKcal5 (c * g)),
        ⟨.ok, none, none, id, some (roundKcal5 (c * g))⟩) := by
  rw [lookupTail]
  simp only [h₁, h₂]

theorem lookupTail_fallback {detail : FoodDetail} {name : String} {amt : ℚ}
    {unit : String} {id : Option ℕ} {L : ℚ}
    (h : caloriesPerGram detail = none
      ∨ gramsForRequest detail unit amt name = none)
    (hl : labelCalories detail = some L)
    (hu : trimS (lowerS unit) = "serving" ∨ trimS (lowerS unit) = "servings") :
    lookupTail detail name amt unit id =
      (some (roundKcal5 (amt * L)),
        ⟨.okFallbackLabel, none, none, id, some (roundKcal5 (amt * L))⟩) := by
  rw [lookupTail]
  rcases h with h | h
  · cases hg : gramsForRequest detail unit amt name with
    | none => simp only [h, hg, hl, if_pos hu]
    | some g => simp only [h, hg, hl, if_pos hu]
  · cases hc : caloriesPerGram detail with
    | none => simp only [h, hc, hl, if_pos hu]
    | some c => simp only [h, hc, hl, if_pos hu]

theorem lookupTail_parse (id : Option ℕ) {detail : FoodDetail}
    {name : String} {amt : ℚ} {unit : String}
    (h : caloriesPerGram detail = none
      ∨ gramsForRequest detail unit amt name = none)
    (hl : labelCalories detail = none
      ∨ (trimS (lowerS unit) ≠ "serving" ∧ trimS (lowerS unit) ≠ "servings")) :
    (lookupTail detail name amt unit id).1 = none
      ∧ (lookupTail detail name amt unit id).2.stage = .parse := by
  rw [lookupTail]
  rcases h with h | h
  · cases hg : gramsForRequest detail unit amt name with
    | none =>
      rcases hl with hl | hl
      · simp only [h, hg, hl]
        constructor <;> simp [h]
      · cases hlc : labelCalories detail with
        | none => simp only [h, hg, hlc]; constructor <;> simp [h]
        | some L =>
          simp only [h, hg, hlc]
          rw [if_neg (not_or.mpr hl)]
          constructor <;> simp [h]
    | some g =>
      rcases hl with hl | hl
      · simp only [h, hg, hl]
        constructor <;> simp [h]
      · cases hlc : labelCalories detail with
        | none => simp only [h, hg, hlc]; constructor <;> simp [h]
        | some L =>
          simp only [h, hg, hlc]
          rw [if_neg (not_or.mpr hl)]
          constructor <;> simp [h]
  · cases hc : caloriesPerGram detail with
    | none =>
      rcases hl with hl | hl
      · simp only [h, hc, hl]
        constructor <;> simp [hc]
      · cases hlc : labelCalories detail with
        | none => simp only [h, hc, hlc]; constructor <;> simp [hc]
        | some L =>
          simp only [h, hc, hlc]
          rw [if_neg (not_or.mpr hl)]
          constructor <;> simp [hc]
    | some c =>
      rcases hl with hl | hl
      · simp only [h, hc, hl]
        constructor <;> simp [hc, h]
      · cases hlc : labelCalories detail with
        | none => simp only [h, hc, hlc]; constructor <;> simp [hc, h]
        | some L =>
          simp only [h, hc, hlc]
          rw [if_neg (not_or.mpr hl)]
          constructor <;> simp [hc, h]

theorem lookup_reaches_tail (amt : ℚ) (unit : String) {b : Backend}
    {name apiKey : String} {food : FoodCandidate} {d : Option Diag}
    {calls : List CallEv} {detail : FoodDetail}
    (hn : name ≠ "") (hk : apiKey ≠ "")
    (hs : searchFood b name = (some food, d, calls))
    (hc : candTruthy food = true)
    (hd : b.details food.fdcId = .ok detail)
    (ht : detailTruthy detail = true) :
    fdcLookupKcal b name amt unit apiKey =
      ((lookupTail detail name amt unit food.fdcId).1,
        some (lookupTail detail name amt unit food.fdcId).2,
        calls ++ [.detailsCall food.fdcId]) := by
  rw [fdcLookupKcal, if_neg (by push_neg; exact ⟨hn, hk⟩)]
  simp only [hs, getFood, hd, hc, ht, if_true]

theorem lookup_input_err (amt : ℚ) (unit : String) {b : Backend}
    {name apiKey : String} (h : name = "" ∨ apiKey = "") :
    fdcLookupKcal b name amt unit apiKey =
      (none, some ⟨.input, none, some "missing name or api_key", none, none⟩,
        []) := by
  rw [fdcLookupKcal, if_pos h]

theorem searchFood_filtered_err {b : Backend} {query : String}
    {s : Option ℕ} {m : String} (h : b.searchFiltered = .err s m) :
    searchFood b query =
      (none, some ⟨.search, s, some m, none, none⟩, [.searchCall true]) := by
  rw [searchFood, h]

theorem searchFood_filtered_hit {b : Backend} {query : String}
    {body : SearchBody} (h : b.searchFiltered = .ok body)
    (hne : body.foods ≠ []) :
    searchFood b query =
      (bestFood body.foods query, none, [.searchCall true]) := by
  rw [searchFood, h]
  simp only [List.isEmpty_eq_true]
  rw [if_neg hne]

theorem searchFood_retry_err {b : Backend} {query : String}
    {body : SearchBody} {s : Option ℕ} {m : String}
    (h : b.searchFiltered = .ok body) (he : body.foods = [])
    (h2 : b.searchUnfiltered = .err s m) :
    searchFood b query =
      (none, some ⟨.search, s, some m, none, none⟩,
        [.searchCall true, .searchCall false]) := by
  rw [searchFood, h]
  simp only [List.isEmpty_eq_true]
  rw [if_pos he, h2]

theorem searchFood_retry_empty {b : Backend} {query : String}
    {body body2 : SearchBody}
    (h : b.searchFiltered = .ok body) (he : body.foods = [])
    (h2 : b.searchUnfiltered = .ok body2) (he2 : body2.foods = []) :
    searchFood b query =
      (none, some ⟨.searchEmpty, some 200, some "no foods", none, none⟩,
        [.searchCall true, .searchCall false]) := by
  rw [searchFood, h]
  simp only [List.isEmpty_eq_true]
  rw [if_pos he, h2]
  simp only [List.isEmpty_eq_true]
  rw [if_pos he2]

theorem searchFood_retry_hit {b : Backend} {query : String}
    {body body2 : SearchBody}
    (h : b.searchFiltered = .ok body) (he : body.foods = [])
    (h2 : b.searchUnfiltered = .ok body2) (hne : body2.foods ≠ []) :
    searchFood b query =
      (bestFood body2.foods query, none,
        [.searchCall true, .searchCall false]) := by
  rw [searchFood, h]
  simp only [List.isEmpty_eq_true]
  rw [if_pos he, h2]
  simp only [List.isEmpty_eq_true]
  rw [if_neg hne]

theorem lookup_search_none {b : Backend} {name : String} {amt : ℚ}
    {unit apiKey : String} {d : Option Diag} {calls : List CallEv}
    (hn : name ≠ "") (hk : apiKey ≠ "")
    (hs : searchFood b name = (none, d, calls)) :
    fdcLookupKcal b name amt unit apiKey = (none, d, calls) := by
  rw [fdcLookupKcal, if_neg (by push_neg; exact ⟨hn, hk⟩)]
  simp only [hs]

theorem lookup_details_err {b : Backend} {name : String} {amt : ℚ}
    {unit apiKey : String} {food : FoodCandidate} {d : Option Diag}
    {calls : List CallEv} {s : Option ℕ} {m : String}
    (hn : name ≠ "") (hk : apiKey ≠ "")
    (hs : searchFood b name = (some food, d, calls))
    (hc : candTruthy food = true)
    (hd : b.details food.fdcId = .err s m) :
    fdcLookupKcal b name amt unit apiKey =
      (none, some ⟨.details, s, some m, food.fdcId, none⟩,
        calls ++ [.detailsCall food.fdcId]) := by
  rw [fdcLookupKcal, if_neg (by push_neg; exact ⟨hn, hk⟩)]
  simp only [hs, getFood, hd, hc, if_true]

theorem nutrientKcal_eq_spec (food : FoodDetail) :
    nutrientKcalPer100g food = nutrientKcalSpec food :=
  nutrientScan_eq_find food.foodNutrients

theorem servingSizeGrams_eq_spec (food : FoodDetail) :
    servingSizeGrams food = servingGramsSpec food := by
  cases hss : food.servingSize with
  | none =>
    simp [servingSizeGrams, servingGramsSpec, hss, firstPosPortion_eq_find]
  | some size =>
    by_cases hu : lowerS (food.servingSizeUnit.getD "") = "g"
        ∨ lowerS (food.servingSizeUnit.getD "") = "gram"
        ∨ lowerS (food.servingSizeUnit.getD "") = "grams"
    · simp only [servingSizeGrams, servingGramsSpec, hss]
      rw [if_pos hu, if_pos ⟨by simp [hss], hu⟩]

    · simp only [servingSizeGrams, servingGramsSpec, hss]
      rw [if_neg hu, if_neg (by simp [hu]), firstPosPortion_eq_find]

theorem caloriesPerGram_eq_spec (food : FoodDetail) :
    caloriesPerGram food = caloriesPerGramSpec food := by
  rw [caloriesPerGram, caloriesPerGramSpec, ← nutrientKcal_eq_spec,
    ← servingSizeGrams_eq_spec]
  cases nutrientKcalPer100g food with
  | some v => rfl
  | none =>
    cases labelCalories food with
    | none => cases servingSizeGrams food <;> rfl
    | some l => cases servingSizeGrams food <;> rfl

theorem nutrientScan_units (f : FoodNutrient → Option String)
    (l : List FoodNutrient) :
    nutrientScan (l.map (fun n => { n with unitName := f n })) = nutrientScan l := by
  induction l with
  | nil => rfl
  | cons n rest ih =>
    rw [List.map_cons, nutrientScan, nutrientScan]
    cases ha : n.amount with
    | none => simpa [ha] using ih
    | some val => simp [ha, energyMatch, resolveNum, ih]

theorem caloriesPerGram_units (f : FoodNutrient → Option String)
    (food : FoodDetail) :
    caloriesPerGram (withNutrientUnits f food) = caloriesPerGram food := by
  rw [caloriesPerGram, caloriesPerGram]
  have h1 : nutrientKcalPer100g (withNutrientUnits f food)
      = nutrientKcalPer100g food := nutrientScan_units f food.foodNutrients
  have h2 : labelCalories (withNutrientUnits f food) = labelCalories food := rfl
  have h3 : servingSizeGrams (withNutrientUnits f food)
      = servingSizeGrams food := rfl
  rw [h1, h2, h3]

/-! ### Claim theorems -/

/-- Claim C3: `caloriesPerGram` strictly prefers the nutrient table over
label data: it agrees everywhere with the spec-side priority function
(first energy entry with a numeric amount per 100 g; otherwise label
calories over the resolved serving-size grams when positive; otherwise
none); in particular nutrient code "1008" amount 165 together with label
calories 200 and servingSize 100 g yields 1.65, not 2.0. -/
theorem c3_calories_per_gram_priority :
    (∀ food : FoodDetail, caloriesPerGram food = caloriesPerGramSpec food)
    ∧ caloriesPerGram exNutrLabelDetail = some (33/20)
    ∧ caloriesPerGram exNutrLabelDetail ≠ some 2 := by
  have heval : caloriesPerGram exNutrLabelDetail = some (33/20) := by
    simp +decide [caloriesPerGram, exNutrLabelDetail, nutrientKcalPer100g,
      nutrientScan]
    norm_num
  refine ⟨caloriesPerGram_eq_spec, heval, ?_⟩
  rw [heval]
  intro h
  rw [Option.some_inj] at h
  norm_num at h

/-- Witness for C3 at a concrete record: the source function and the
spec-side priority function agree. -/
theorem c3_calories_per_gram_priority_witness :
    caloriesPerGram exNutrLabelDetail = caloriesPerGramSpec exNutrLabelDetail :=
  c3_calories_per_gram_priority.1 exNutrLabelDetail

/-- Claim C10: the nutrient-table path of `caloriesPerGram` returns
amount/100 of the first nutrient entry that matches the energy criteria
*and* has a numeric amount; a matching entry with a non-numeric amount is
skipped and scanning continues (`exSkipDetail`); the entry's unit field is
never consulted, so a kJ-denominated energy entry preceding the kcal
entry is used as if it were kcal per 100 g (`exKJDetail`). -/
theorem c10_nutrient_scan :
    (∀ (food : FoodDetail) (f : FoodNutrient → Option String),
        caloriesPerGram (withNutrientUnits f food) = caloriesPerGram food)
    ∧ (∀ (food : FoodDetail) (n : FoodNutrient),
        food.foodNutrients.find? energyNumeric = some n →
        ∃ v, n.amount = some v ∧ caloriesPerGram food = some (v / 100))
    ∧ caloriesPerGram exSkipDetail = some (93/25)
    ∧ caloriesPerGram exKJDetail = some (93/25) := by
  refine ⟨fun food f => caloriesPerGram_units f food, ?_, ?_, ?_⟩
  · intro food n hf
    have hpred : energyNumeric n = true := List.find?_some hf
    have hamt : n.amount.isSome := by
      rcases Bool.and_eq_true_iff.mp hpred with ⟨h, _⟩
      exact h
    obtain ⟨v, hv⟩ := Option.isSome_iff_exists.mp hamt
    refine ⟨v, hv, ?_⟩
    have : nutrientKcalPer100g food = some v := by
      rw [nutrientKcal_eq_spec, nutrientKcalSpec, hf]
      simp [hv]
    rw [caloriesPerGram, this]
  · simp +decide [caloriesPerGram, exSkipDetail, nutrientKcalPer100g,
      nutrientScan]
    norm_num
  · simp +decide [caloriesPerGram, exKJDetail, nutrientKcalPer100g,
      nutrientScan]
    norm_num

/-- Witness for C10 at a concrete record: the kJ entry is the first
energy entry with a numeric amount, and the result divides it by 100. -/
theorem c10_nutrient_scan_witness :
    exKJDetail.foodNutrients.find? energyNumeric
        = some ⟨some "1008", none, some "Energy", some 372, some "kJ"⟩
      ∧ ∃ v, (⟨some "1008", none, some "Energy", some 372, some "kJ"⟩
          : FoodNutrient).amount = some v
        ∧ caloriesPerGram exKJDetail = some (v / 100) := by
  have h : exKJDetail.foodNutrients.find? energyNumeric
      = some ⟨some "1008", none, some "Energy", some 372, some "kJ"⟩ := by
    decide
  exact ⟨h, c10_nutrient_scan.2.1 exKJDetail _ h⟩

/-- Claim C2: for units not normalizing to g/oz, `gramsForRequest` agrees
with the spec-side function: amount × the gram weight of the first
matching portion with a numeric gram weight, with priority over every
generic fallback; only with no matching portion the "each" keyword table
(then generic 50 g), the tbsp/tsp/cup table, and otherwise none.  The
closed conjuncts exercise: an authoritative cup portion of 100 g beating
the 240 g table, the cup table without portions, the egg keyword, the
generic each fallback, and an unknown unit. -/
theorem c2_grams_for_request :
    (∀ (food : FoodDetail) (unit : String) (amt : ℚ) (name : String),
        normUnit unit ≠ "g" → normUnit unit ≠ "oz" →
        gramsForRequest food unit amt name
          = gramsSpec food (normUnit unit) amt name)
    ∧ gramsForRequest exCupDetail "cup" 2 "rice" = some 200
    ∧ gramsForRequest exEmptyDetail "cup" 2 "rice" = some 480
    ∧ gramsForRequest exEmptyDetail "each" 3 "Large Eggs" = some 150
    ∧ gramsForRequest exEmptyDetail "each" 1 "dragonfruit" = some 50
    ∧ gramsForRequest exEmptyDetail "slice" 2 "bread" = none := by
  refine ⟨?_, ?_, ?_, ?_, ?_, ?_⟩
  · intro food unit amt name h1 h2
    simp only [gramsForRequest, gramsSpec]
    rw [if_neg (by push_neg; exact ⟨h1, h2⟩), portionScan_eq_find]
    cases hf : food.foodPortions.find?
        (fun p => p.gramWeight.isSome && portionMatches (normUnit unit) p) with
    | none => rfl
    | some p =>
      have hpred := List.find?_some hf
      rcases Bool.and_eq_true_iff.mp hpred with ⟨hsome, _⟩
      obtain ⟨g, hg⟩ := Option.isSome_iff_exists.mp hsome
      simp [hg]
  · simp +decide [gramsForRequest, exCupDetail, portionScan]
    norm_num
  · simp +decide [gramsForRequest, exEmptyDetail, portionScan]
    norm_num
  · simp +decide [gramsForRequest, exEmptyDetail, portionScan, eachGrams,
      eachTable]
    norm_num
  · simp +decide [gramsForRequest, exEmptyDetail, portionScan, eachGrams,
      eachTable]
  · simp +decide [gramsForRequest, exEmptyDetail, portionScan]

/-- Witness for C2 at a concrete input: for the normalized unit "cup"
(not g/oz) the source function and the spec-side function agree. -/
theorem c2_grams_for_request_witness :
    (normUnit "cup" ≠ "g" ∧ normUnit "cup" ≠ "oz")
      ∧ gramsForRequest exCupDetail "cup" 2 "rice"
          = gramsSpec exCupDetail (normUnit "cup") 2 "rice" :=
  ⟨⟨by decide, by decide⟩,
    c2_grams_for_request.1 exCupDetail "cup" 2 "rice" (by decide) (by decide)⟩

/-- Claim C6 counterexample: the claim asserts that a whitespace-only
unit behaves as "g" (result exactly `amount`, independent of the detail).
In the code `(unit or "g")` applies the default only to the empty string,
so `" "` normalizes to `""`, the empty token matches any portion with a
numeric gram weight, and with no portions the result is `none`: with
amount 2 the results are 200 and none, never 2. -/
theorem c6_unit_normalization_counterexample :
    normUnit " " = ""
      ∧ gramsForRequest exCupDetail " " 2 "x" = some 200
      ∧ gramsForRequest exCupDetail " " 2 "x" ≠ some 2
      ∧ gramsForRequest exEmptyDetail " " 2 "x" = none := by
  have h1 : gramsForRequest exCupDetail " " 2 "x" = some 200 := by
    simp +decide [gramsForRequest, exCupDetail, portionScan]
    norm_num
  refine ⟨by decide, h1, ?_, ?_⟩
  · rw [h1]
    intro h
    rw [Option.some_inj] at h
    norm_num at h
  · simp +decide [gramsForRequest, exEmptyDetail, portionScan]

/-- Claim C6 as amended: the unit is normalized by applying the `"g"`
default only to the empty string and then lower-casing and stripping; for
every unit normalizing to `"g"` (including the empty unit) the result is
exactly `amount`, and for every unit normalizing to `"oz"` it is
`amount × 28.349523125`, independent of the detail.  A whitespace-only
unit normalizes to `""` instead and takes the portion-scan path. -/
theorem c6_unit_normalization_amended :
    ∀ (food : FoodDetail) (unit : String) (amt : ℚ) (name : String),
      (normUnit unit = "g" → gramsForRequest food unit amt name = some amt)
      ∧ (normUnit unit = "oz" →
          gramsForRequest food unit amt name = some (amt * 28.349523125)) := by
  intro food unit amt name
  constructor
  · intro h
    simp only [gramsForRequest]
    rw [if_pos (Or.inl h), if_pos h, mul_one]
  · intro h
    simp only [gramsForRequest]
    rw [if_pos (Or.inr h), if_neg (by rw [h]; decide)]
    rfl

/-- Witness for the amended C6: `" G "` normalizes to "g" and converts to
exactly the amount; `"OZ"` normalizes to "oz" and converts by the fixed
factor. -/
theorem c6_unit_normalization_witness :
    (normUnit " G " = "g" ∧ gramsForRequest exEmptyDetail " G " 7 "x" = some 7)
      ∧ (normUnit "OZ" = "oz" ∧ gramsForRequest exEmptyDetail "OZ" 2 "x"
          = some (2 * 28.349523125)) :=
  ⟨⟨by decide, (c6_unit_normalization_amended exEmptyDetail " G " 7 "x").1 (by decide)⟩,
    ⟨by decide, (c6_unit_normalization_amended exEmptyDetail "OZ" 2 "x").2 (by decide)⟩⟩

/-- Claim C4: `_best_food` of an empty list is none; of a non-empty list
it returns an element that is minimal under the composite key (source-type
rank, dried-agreement penalty, negated score, lexicographically) — i.e.
the head of the ascending stable sort; with source types
[Branded, Foundation, Survey (FNDDS)] and equal scores the Survey (FNDDS)
candidate is selected. -/
theorem c4_best_food_ranking :
    (∀ query : String, bestFood [] query = none)
    ∧ (∀ (x : FoodCandidate) (xs : List FoodCandidate) (query : String),
        ∃ b, bestFood (x :: xs) query = some b ∧ b ∈ x :: xs
          ∧ ∀ f ∈ x :: xs, sortKey query b ≤ sortKey query f)
    ∧ bestFood [cBranded, cFoundation, cSurvey] "apple" = some cSurvey :=
  ⟨fun _ => rfl, bestFood_cons, by decide⟩

/-- Witness for C4: the ranked minimum exists on a concrete singleton
list. -/
theorem c4_best_food_ranking_witness :
    ∃ b, bestFood [cSurvey] "apple" = some b ∧ b ∈ [cSurvey]
      ∧ ∀ f ∈ [cSurvey], sortKey "apple" b ≤ sortKey "apple" f :=
  c4_best_food_ranking.2.1 cSurvey [] "apple"

theorem lookupTail_result_rounded {detail : FoodDetail} {name : String}
    {amt : ℚ} {unit : String} {id : Option ℕ} {t : ℚ}
    (h : (lookupTail detail name amt unit id).1 = some t) :
    ∃ x, t = roundKcal5 x := by
  rw [lookupTail] at h
  cases hc : caloriesPerGram detail with
  | some c =>
    cases hg : gramsForRequest detail unit amt name with
    | some g =>
      simp only [hc, hg] at h
      exact ⟨c * g, (Option.some_inj.mp h).symm⟩
    | none =>
      simp only [hc, hg] at h
      cases hl : labelCalories detail with
      | some L =>
        simp only [hl] at h
        by_cases hu : trimS (lowerS unit) = "serving"
            ∨ trimS (lowerS unit) = "servings"
        · rw [if_pos hu] at h
          exact ⟨amt * L, (Option.some_inj.mp h).symm⟩
        · rw [if_neg hu] at h
          simp at h
      | none =>
        simp only [hl] at h
        simp at h
  | none =>
    cases hg : gramsForRequest detail unit amt name with
    | some g =>
      simp only [hc, hg] at h
      cases hl : labelCalories detail with
      | some L =>
        simp only [hl] at h
        by_cases hu : trimS (lowerS unit) = "serving"
            ∨ trimS (lowerS unit) = "servings"
        · rw [if_pos hu] at h
          exact ⟨amt * L, (Option.some_inj.mp h).symm⟩
        · rw [if_neg hu] at h
          simp at h
      | none =>
        simp only [hl] at h
        simp at h
    | none =>
      simp only [hc, hg] at h
      cases hl : labelCalories detail with
      | some L =>
        simp only [hl] at h
        by_cases hu : trimS (lowerS unit) = "serving"
            ∨ trimS (lowerS unit) = "servings"
        · rw [if_pos hu] at h
          exact ⟨amt * L, (Option.some_inj.mp h).symm⟩
        · rw [if_neg hu] at h
          simp at h
      | none =>
        simp only [hl] at h
        simp at h

/-- Claim C5: every total produced by the extract/convert stage is a
multiple of the default granularity 5; 172.3 rounds to 170 and 173.0 to
175; the half-way rule is round-half-to-even, applied consistently in both
directions (172.5 → 170, 177.5 → 180); rounding moves a value by at most
half the granularity; with the granularity disabled the result is the
nearest whole kcal (again half-to-even). -/
theorem c5_rounding_policy :
    (∀ (detail : FoodDetail) (name : String) (amt : ℚ) (unit : String)
        (id : Option ℕ) (t : ℚ),
        (lookupTail detail name amt unit id).1 = some t → ∃ k : ℤ, t = 5 * k)
    ∧ roundKcal5 (1723/10) = 170
    ∧ roundKcal5 173 = 175
    ∧ roundKcal5 (345/2) = 170
    ∧ roundKcal5 (355/2) = 180
    ∧ (∀ v : ℚ, |v - roundKcal5 v| ≤ 5/2)
    ∧ (∀ v : ℚ, (∃ k : ℤ, roundKcal none v = (k : ℚ))
        ∧ |v - roundKcal none v| ≤ 1/2) := by
  refine ⟨?_, ?_, ?_, ?_, ?_, ?_, ?_⟩
  · intro detail name amt unit id t h
    obtain ⟨x, hx⟩ := lookupTail_result_rounded h
    refine ⟨pyRound (x / 5), ?_⟩
    rw [hx, roundKcal5_eq]
    ring
  · norm_num [roundKcal5, roundKcal, ROUND_TO_KCAL, pyRound]
  · norm_num [roundKcal5, roundKcal, ROUND_TO_KCAL, pyRound]
  · norm_num [roundKcal5, roundKcal, ROUND_TO_KCAL, pyRound]
  · norm_num [roundKcal5, roundKcal, ROUND_TO_KCAL, pyRound]
  · intro v
    have h := pyRound_close (v / 5)
    rw [roundKcal5_eq]
    have : v - (pyRound (v / 5) : ℚ) * 5 = 5 * (v / 5 - pyRound (v / 5)) := by
      ring
    rw [this, abs_mul, abs_of_pos (by norm_num : (0:ℚ) < 5)]
    linarith
  · intro v
    exact ⟨⟨pyRound v, rfl⟩, pyRound_close v⟩

/-- Witness for C5: a successful tail run (nutrient 100 kcal/100 g,
100 g requested) returns 100, a multiple of 5. -/
theorem c5_rounding_policy_witness :
    (lookupTail exUnitDetail "egg" 100 "g" none).1 = some 100
      ∧ ∃ k : ℤ, (100 : ℚ) = 5 * k := by
  have hc : caloriesPerGram exUnitDetail = some 1 := by
    simp +decide [caloriesPerGram, exUnitDetail, nutrientKcalPer100g,
      nutrientScan]
  have hg : gramsForRequest exUnitDetail "g" 100 "egg" = some 100 := by
    simp +decide [gramsForRequest]
  have h : (lookupTail exUnitDetail "egg" 100 "g" none).1 = some 100 := by
    rw [lookupTail_pref hc hg]
    norm_num [roundKcal5, roundKcal, ROUND_TO_KCAL, pyRound]
  exact ⟨h, c5_rounding_policy.1 exUnitDetail "egg" 100 "g" none 100 h⟩

/-- Claim C1: for every call that reaches the extract/convert stage
(valid input, a truthy candidate found, a truthy detail fetched), a
numeric result is returned only on the two sanctioned paths: (a) both
calories-per-gram and grams-for-request resolve — result is the rounded
product, diagnostic stage `ok`; (b) otherwise, label calories are numeric
and the normalized unit is serving/servings — result is the rounded
`amount × label`, stage `ok_fallback_label`; in every other case the call
returns none (with stage `parse`). -/
theorem c1_extract_convert_gate :
    ∀ (b : Backend) (name : String) (amt : ℚ) (unit apiKey : String)
      (food : FoodCandidate) (d : Option Diag) (calls : List CallEv)
      (detail : FoodDetail),
      name ≠ "" → apiKey ≠ "" →
      searchFood b name = (some food, d, calls) → candTruthy food = true →
      b.details food.fdcId = .ok detail → detailTruthy detail = true →
      (∀ c g, caloriesPerGram detail = some c →
          gramsForRequest detail unit amt name = some g →
          (fdcLookupKcal b name amt unit apiKey).1 = some (roundKcal5 (c * g))
            ∧ ∃ dg, (fdcLookupKcal b name amt unit apiKey).2.1 = some dg
              ∧ dg.stage = .ok)
      ∧ (∀ L, (caloriesPerGram detail = none
            ∨ gramsForRequest detail unit amt name = none) →
          labelCalories detail = some L →
          (trimS (lowerS unit) = "serving" ∨ trimS (lowerS unit) = "servings") →
          (fdcLookupKcal b name amt unit apiKey).1 = some (roundKcal5 (amt * L))
            ∧ ∃ dg, (fdcLookupKcal b name amt unit apiKey).2.1 = some dg
              ∧ dg.stage = .okFallbackLabel)
      ∧ ((caloriesPerGram detail = none
            ∨ gramsForRequest detail unit amt name = none) →
          (labelCalories detail = none
            ∨ (trimS (lowerS unit) ≠ "serving" ∧ trimS (lowerS unit) ≠ "servings")) →
          (fdcLookupKcal b name amt unit apiKey).1 = none
            ∧ ∃ dg, (fdcLookupKcal b name amt unit apiKey).2.1 = some dg
              ∧ dg.stage = .parse) := by
  intro b name amt unit apiKey food d calls detail hn hk hs hct hd hdt
  have hmain := lookup_reaches_tail amt unit hn hk hs hct hd hdt
  refine ⟨?_, ?_, ?_⟩
  · intro c g hc hg
    rw [hmain, lookupTail_pref hc hg]
    exact ⟨rfl, _, rfl, rfl⟩
  · intro L hnone hl hu
    rw [hmain, lookupTail_fallback hnone hl hu]
    exact ⟨rfl, _, rfl, rfl⟩
  · intro hnone hl
    obtain ⟨h1, h2⟩ := lookupTail_parse food.fdcId hnone hl
    rw [hmain]
    exact ⟨h1, _, rfl, h2⟩

/-- Witness for C1: a backend resolving "banana" to a 100 kcal/100 g
detail; 118 g requested on the preferred path. -/
theorem c1_extract_convert_gate_witness :
    (fdcLookupKcal bSuccess "banana" 118 "g" "KEY").1
        = some (roundKcal5 (1 * 118))
      ∧ ∃ dg, (fdcLookupKcal bSuccess "banana" 118 "g" "KEY").2.1 = some dg
        ∧ dg.stage = .ok := by
  have hs : searchFood bSuccess "banana"
      = (some cSurvey, none, [.searchCall true]) := by decide
  have hc : caloriesPerGram exUnitDetail = some 1 := by
    simp +decide [caloriesPerGram, exUnitDetail, nutrientKcalPer100g,
      nutrientScan]
  have hg : gramsForRequest exUnitDetail "g" 118 "banana" = some 118 := by
    simp +decide [gramsForRequest]
  exact (c1_extract_convert_gate bSuccess "banana" 118 "g" "KEY" cSurvey none
    [.searchCall true] exUnitDetail (by decide) (by decide) hs (by decide)
    rfl (by decide)).1 1 118 hc hg

/-- Claim C7 counterexample: a transient failure (timeout → status none)
on the filtered search leads to exactly one issued HTTP request — there is
no retry, no backoff — and the failure is surfaced immediately as a
`search`-stage diagnostic. -/
theorem c7_retry_counterexample :
    (fdcLookupKcal bTimeout "apple" 1 "g" "KEY").2.2 = [.searchCall true]
      ∧ (fdcLookupKcal bTimeout "apple" 1 "g" "KEY").1 = none
      ∧ (fdcLookupKcal bTimeout "apple" 1 "g" "KEY").2.1
          = some ⟨.search, none, some "ReadTimeout", none, none⟩ := by
  decide

/-- Claim C7 as amended: there is no retry/backoff at the HTTP layer —
each HTTP request is issued exactly once, and any failure of it (timeout
or connection failure with status none, or any non-200 status, 429/5xx and
other 4xx alike) is surfaced immediately as a `search` or `details` stage
failure carrying the status and error. -/
theorem c7_single_attempt :
    (∀ (b : Backend) (name : String) (amt : ℚ) (unit apiKey : String)
        (s : Option ℕ) (m : String),
        name ≠ "" → apiKey ≠ "" → b.searchFiltered = .err s m →
        fdcLookupKcal b name amt unit apiKey
          = (none, some ⟨.search, s, some m, none, none⟩, [.searchCall true]))
    ∧ (∀ (b : Backend) (name : String) (amt : ℚ) (unit apiKey : String)
        (food : FoodCandidate) (d : Option Diag) (calls : List CallEv)
        (s : Option ℕ) (m : String),
        name ≠ "" → apiKey ≠ "" →
        searchFood b name = (some food, d, calls) → candTruthy food = true →
        b.details food.fdcId = .err s m →
        fdcLookupKcal b name amt unit apiKey
          = (none, some ⟨.details, s, some m, food.fdcId, none⟩,
              calls ++ [.detailsCall food.fdcId])) := by
  constructor
  · intro b name amt unit apiKey s m hn hk h
    exact lookup_search_none hn hk (searchFood_filtered_err h)
  · intro b name amt unit apiKey food d calls s m hn hk hs hct hd
    exact lookup_details_err hn hk hs hct hd

/-- Witness for the amended C7: the timed-out filtered search is issued
once and surfaced. -/
theorem c7_single_attempt_witness :
    fdcLookupKcal bTimeout "apple" 1 "g" "KEY"
      = (none, some ⟨.search, none, some "ReadTimeout", none, none⟩,
          [.searchCall true]) :=
  c7_single_attempt.1 bTimeout "apple" 1 "g" "KEY" none "ReadTimeout"
    (by decide) (by decide) rfl

/-- Claim C8: when the filtered search succeeds with zero candidates,
exactly one retry is issued without the filter (the trace is exactly two
search calls); if every attempt yields zero candidates the lookup returns
none with stage `search_empty`; a hard search failure returns none with
stage `search` carrying the status and error (after one filtered call, or
after the one retry when the retry itself fails hard). -/
theorem c8_search_retry_policy :
    (∀ (b : Backend) (name : String) (amt : ℚ) (unit apiKey : String)
        (body : SearchBody),
        name ≠ "" → apiKey ≠ "" →
        b.searchFiltered = .ok body → body.foods = [] →
        (∀ body2, b.searchUnfiltered = .ok body2 → body2.foods = [] →
            fdcLookupKcal b name amt unit apiKey
              = (none, some ⟨.searchEmpty, some 200, some "no foods", none, none⟩,
                  [.searchCall true, .searchCall false]))
          ∧ (∀ s m, b.searchUnfiltered = .err s m →
              fdcLookupKcal b name amt unit apiKey
                = (none, some ⟨.search, s, some m, none, none⟩,
                    [.searchCall true, .searchCall false])))
    ∧ (∀ (b : Backend) (name : String) (amt : ℚ) (unit apiKey : String)
        (s : Option ℕ) (m : String),
        name ≠ "" → apiKey ≠ "" → b.searchFiltered = .err s m →
        fdcLookupKcal b name amt unit apiKey
          = (none, some ⟨.search, s, some m, none, none⟩, [.searchCall true])) := by
  constructor
  · intro b name amt unit apiKey body hn hk hf he
    constructor
    · intro body2 hu he2
      exact lookup_search_none hn hk (searchFood_retry_empty hf he hu he2)
    · intro s m hu
      exact lookup_search_none hn hk (searchFood_retry_err hf he hu)
  · intro b name amt unit apiKey s m hn hk h
    exact lookup_search_none hn hk (searchFood_filtered_err h)

/-- Witness for C8: both searches return zero candidates; the lookup
issues exactly the two search calls and reports `search_empty`. -/
theorem c8_search_retry_policy_witness :
    fdcLookupKcal bEmptySearch "apple" 1 "g" "KEY"
      = (none, some ⟨.searchEmpty, some 200, some "no foods", none, none⟩,
          [.searchCall true, .searchCall false]) :=
  (c8_search_retry_policy.1 bEmptySearch "apple" 1 "g" "KEY" ⟨[]⟩
    (by decide) (by decide) rfl rfl).1 ⟨[]⟩ rfl rfl

theorem lookupTail_none_stage {detail : FoodDetail} {name : String}
    {amt : ℚ} {unit : String} {id : Option ℕ}
    (h : (lookupTail detail name amt unit id).1 = none) :
    (lookupTail detail name amt unit id).2.stage = .parse := by
  rw [lookupTail] at h ⊢
  cases hc : caloriesPerGram detail with
  | some c =>
    cases hg : gramsForRequest detail unit amt name with
    | some g => simp [hc, hg] at h
    | none =>
      simp only [hc, hg] at h ⊢
      cases hl : labelCalories detail with
      | some L =>
        simp only [hl] at h ⊢
        by_cases hu : trimS (lowerS unit) = "serving"
            ∨ trimS (lowerS unit) = "servings"
        · rw [if_pos hu] at h
          simp at h
        · rw [if_neg hu]
          simp [hc]
      | none => simp [hc]
  | none =>
    cases hg : gramsForRequest detail unit amt name with
    | some g =>
      simp only [hc, hg] at h ⊢
      cases hl : labelCalories detail with
      | some L =>
        simp only [hl] at h ⊢
        by_cases hu : trimS (lowerS unit) = "serving"
            ∨ trimS (lowerS unit) = "servings"
        · rw [if_pos hu] at h
          simp at h
        · rw [if_neg hu]
          simp
      | none => simp
    | none =>
      simp only [hc, hg] at h ⊢
      cases hl : labelCalories detail with
      | some L =>
        simp only [hl] at h ⊢
        by_cases hu : trimS (lowerS unit) = "serving"
            ∨ trimS (lowerS unit) = "servings"
        · rw [if_pos hu] at h
          simp at h
        · rw [if_neg hu]
          simp
      | none => simp

theorem lookup_after_search (amt : ℚ) (unit : String) {b : Backend}
    {name apiKey : String} {food : FoodCandidate} {d : Option Diag}
    {calls : List CallEv}
    (hn : name ≠ "") (hk : apiKey ≠ "")
    (hs : searchFood b name = (some food, d, calls))
    (hct : candTruthy food = true)
    (hwfdet : ∀ id detail, b.details id = .ok detail → detailTruthy detail = true)
    (hres : (fdcLookupKcal b name amt unit apiKey).1 = none) :
    ∃ dg, (fdcLookupKcal b name amt unit apiKey).2.1 = some dg
      ∧ (dg.stage = .details ∨ dg.stage = .parse) := by
  cases hd : b.details food.fdcId with
  | err s m =>
    rw [lookup_details_err hn hk hs hct hd]
    exact ⟨_, rfl, Or.inl rfl⟩
  | ok detail =>
    have hdt := hwfdet food.fdcId detail hd
    have hmain := lookup_reaches_tail amt unit hn hk hs hct hd hdt
    rw [hmain] at hres ⊢
    exact ⟨_, rfl, Or.inr (lookupTail_none_stage hres)⟩

/-- Claim C9 counterexample: a search response with HTTP status 200 whose
body is the JSON array `[1]` — an expected malformed-response failure
mode — makes `fdc_lookup_kcal` raise `AttributeError` (from
`(data or {}).get("foods")`) across the public boundary instead of
returning none with a diagnostic. -/
theorem c9_never_raises_counterexample :
    dynFdcLookupKcal badArrayTriple emptyFoodsTriple errDetailsTriple
      "apple" 1 "g" "KEY" = .error (.attributeError "get") := by
  decide

/-- Claim C9 as amended: for well-shaped backend responses, every
expected failure (missing data, empty search results, conversion
ambiguity, input errors, HTTP failures) is represented as a none return
together with a diagnostic record whose stage names the failing step —
the typed pipeline is total, so no exception crosses the boundary on
these paths.  (A body that is valid JSON of the wrong shape, however,
raises — see the counterexample.) -/
theorem c9_none_has_diagnostic :
    ∀ (b : Backend) (name : String) (amt : ℚ) (unit apiKey : String),
      wfBackend b → (fdcLookupKcal b name amt unit apiKey).1 = none →
      ∃ dg, (fdcLookupKcal b name amt unit apiKey).2.1 = some dg
        ∧ (dg.stage = .input ∨ dg.stage = .search ∨ dg.stage = .searchEmpty
          ∨ dg.stage = .details ∨ dg.stage = .parse) := by
  intro b name amt unit apiKey hwf hres
  by_cases hin : name = "" ∨ apiKey = ""
  · rw [lookup_input_err amt unit hin]
    exact ⟨_, rfl, Or.inl rfl⟩
  · push_neg at hin
    obtain ⟨hn, hk⟩ := hin
    cases hsf : b.searchFiltered with
    | err s m =>
      rw [lookup_search_none hn hk (searchFood_filtered_err hsf)]
      exact ⟨_, rfl, Or.inr (Or.inl rfl)⟩
    | ok body =>
      by_cases hbe : body.foods = []
      · cases hsu : b.searchUnfiltered with
        | err s m =>
          rw [lookup_search_none hn hk (searchFood_retry_err hsf hbe hsu)]
          exact ⟨_, rfl, Or.inr (Or.inl rfl)⟩
        | ok body2 =>
          by_cases hbe2 : body2.foods = []
          · rw [lookup_search_none hn hk
              (searchFood_retry_empty hsf hbe hsu hbe2)]
            exact ⟨_, rfl, Or.inr (Or.inr (Or.inl rfl))⟩
          · obtain ⟨f, hbf⟩ := bestFood_isSome name hbe2
            have hct : candTruthy f = true :=
              hwf.2.1 body2 hsu f (bestFood_mem hbf)
            have hs : searchFood b name
                = (some f, none, [.searchCall true, .searchCall false]) := by
              rw [searchFood_retry_hit hsf hbe hsu hbe2, hbf]
            obtain ⟨dg, hdg, hst⟩ :=
              lookup_after_search amt unit hn hk hs hct hwf.2.2 hres
            exact ⟨dg, hdg, by tauto⟩
      · obtain ⟨f, hbf⟩ := bestFood_isSome name hbe
        have hct : candTruthy f = true := hwf.1 body hsf f (bestFood_mem hbf)
        have hs : searchFood b name = (some f, none, [.searchCall true]) := by
          rw [searchFood_filtered_hit hsf hbe, hbf]
        obtain ⟨dg, hdg, hst⟩ := lookup_after_search amt unit hn hk hs hct hwf.2.2 hres
        exact ⟨dg, hdg, by tauto⟩

/-- Witness for the amended C9: the empty-search backend is well-shaped;
its failing lookup carries the `search_empty` diagnostic. -/
theorem c9_none_has_diagnostic_witness :
    wfBackend bEmptySearch
      ∧ ∃ dg, (fdcLookupKcal bEmptySearch "apple" 1 "g" "KEY").2.1 = some dg
        ∧ (dg.stage = .input ∨ dg.stage = .search ∨ dg.stage = .searchEmpty
          ∨ dg.stage = .details ∨ dg.stage = .parse) := by
  have hwf : wfBackend bEmptySearch := by
    refine ⟨?_, ?_, ?_⟩
    · intro body h f hf
      cases h
      simp at hf
    · intro body h f hf
      cases h
      simp at hf
    · intro id dd h
      exact nomatch h
  exact ⟨hwf, c9_none_has_diagnostic bEmptySearch "apple" 1 "g" "KEY" hwf
    (by decide)⟩

end FdcLookup
